import Mathlib

/-!
# Verification of the openclaw-clawatch session connector

Shallow embedding of the Clawatch plugin's core (config.ts, connector.ts,
runtime.ts) and proofs about its session-key derivation, frame handling,
reconnect backoff, roster maintenance and disconnect lifecycle.

JavaScript strings are modelled as Lean `String`s; the string operations the
source uses (`startsWith`-style matching, slicing, the 15-digit test of the
regular expression) are implemented over the underlying character list so that
they can be reasoned about directly.  Promises are modelled by their
settlement outcome (`Except`/`Option`), timers by explicit boolean/counter
state, and the callback-driven connector by pure step functions returning the
frames written to the wire and the callbacks invoked.
-/

namespace Clawatch

/-! ## String helpers (JS string primitives used by the source) -/

/-- JS `s.startsWith(p)`, by recursion on the sought pattern. -/
def startsWithL : List Char → List Char → Bool
  | _, [] => true
  | [], _ :: _ => false
  | c :: s, p :: ps => c == p && startsWithL s ps

/-! ## config.ts -/

/-- Source constant `DEFAULT_SESSION_PREFIX` (renamed for Lean). -/
def DEFAULT_SESSION_PREF : String := "clawatch:"

/-- Source constant `DEFAULT_AGENT_ID`. -/
def DEFAULT_AGENT_ID : String := "main"

/-- Source constant `PLUGIN_VERSION`. -/
def PLUGIN_VERSION : String := "0.1.22"

/-- Source constant `DEFAULT_API_URL`. -/
def DEFAULT_API_URL : String := "wss://api.sg.mempat.com/api/v1/watch/connect"

/-- config.ts `getSessionKey(prefix, imei)`: the template literal
joining the configured prefix and the IMEI. -/
def getSessionKey (pre imei : String) : String := pre ++ imei

/-- config.ts `parseImeiFromSessionKey(sessionKey)`.

The source first rejects a falsy (empty) string, then matches the anchored
regular expression with an optional `session:` head, a literal `clawatch:`
head, and a capture group of exactly 15 digits; it returns the capture or
`null`.  The regex is embedded as the equivalent deterministic match: strip an
optional leading `session:`, require a leading `clawatch:`, and require the
remainder to be exactly 15 digits. -/
def parseImeiFromSessionKey (sessionKey : String) : Option String :=
  let cs := sessionKey.data
  if cs.isEmpty then none
  else
    let core := if startsWithL cs "session:".data then cs.drop 8 else cs
    if startsWithL core "clawatch:".data then
      let imei := core.drop 9
      if imei.length == 15 && imei.all Char.isDigit then some (String.mk imei) else none
    else none

/-! ## types.ts — data model -/

/-- Numeric telemetry values (JS `number`); they are only passed through,
never computed on, so an integer carrier is adequate. -/
abbrev JsNum := Int

structure WatchInfo where
  imei : String
  label : Option String
deriving DecidableEq, Repr

/-- `{ value: number; received_at?: number }` sub-objects of `MessageContext`. -/
structure NumSample where
  value : JsNum
  received_at : Option JsNum
deriving DecidableEq, Repr

structure GeoSample where
  lat : JsNum
  lng : JsNum
  received_at : Option JsNum
deriving DecidableEq, Repr

structure BpSample where
  systolic : JsNum
  diastolic : JsNum
  received_at : Option JsNum
deriving DecidableEq, Repr

structure HealthContext where
  heart_rate : Option NumSample
  temperature : Option NumSample
  oxygen : Option NumSample
  blood_pressure : Option BpSample
deriving DecidableEq, Repr

/-- types.ts `MessageContext`. -/
structure MessageContext where
  location : Option GeoSample
  steps : Option NumSample
  battery : Option NumSample
  health : Option HealthContext
deriving DecidableEq, Repr

/-- `Record<string, unknown>` control parameters; only numeric-valued
settings (`intervalSec`) are ever placed in it by this plugin. -/
abbrev ControlParams := List (String × JsNum)

/-- Frames the plugin writes to the wire (`register`, `reply`, the outbound
`error` carrying `agent_error`, `control`, `push`, `ping`). -/
inductive OutFrame where
  | register (token client version : String)
  | reply (id text : String) (done : Bool)
  | error (id message : String) (code : Option String)
  | control (id action imei : String) (params : Option ControlParams)
  | push (id imei text : String)
  | ping
deriving DecidableEq, Repr

/-- Frames the connector receives and dispatches in `handleFrame`; `unknown`
stands for any unrecognized `type` tag (the `default` branch). -/
inductive InFrame where
  | registered (watches : List WatchInfo)
  | error (code : Option String) (message : String) (id : Option String)
  | pong
  | unbound (imei : String) (reason : Option String)
  | message (id imei text : String) (timestamp : Option JsNum)
      (isCommand : Option Bool) (context : Option MessageContext)
  | control_ack (id : String) (ok : Bool)
  | unknown (tag : Option String)
deriving DecidableEq, Repr

/-- An invocation of one of the `ConnectorCallbacks` members. -/
inductive CbEvent where
  | onRegistered (watches : List WatchInfo)
  | onError (code : Option String) (message : String) (id : Option String)
  | onPong
  | onUnbound (imei : String) (reason : Option String)
  | onMessage (id imei text : String) (timestamp : Option JsNum)
      (isCommand : Option Bool) (context : Option MessageContext)
  | onControlAck (id : String) (ok : Bool)
  | onDebug (msg : String)
deriving DecidableEq, Repr

/-- Which of the optional `ConnectorCallbacks` members are supplied
(`onControlAck?.`, `onDebug?.`, `onReconnect?.` in the source). -/
structure CallbacksShape where
  hasOnControlAck : Bool
  hasOnDebug : Bool
  hasOnReconnect : Bool
deriving DecidableEq, Repr

/-- The correlation id carried by an outbound frame, when it has one. -/
def frameId : OutFrame → Option String
  | .register _ _ _ => none
  | .reply id _ _ => some id
  | .error id _ _ => some id
  | .control id _ _ _ => some id
  | .push id _ _ => some id
  | .ping => none

/-- Recognize an outbound Reply frame. -/
def isReplyFrame : OutFrame → Bool
  | .reply _ _ _ => true
  | _ => false

/-- Recognize an outbound Error frame. -/
def isErrorFrame : OutFrame → Bool
  | .error _ _ _ => true
  | _ => false

/-! ## connector.ts — `ClawatchConnector` -/

/-- `WebSocket.readyState` values. -/
inductive ReadyState where
  | CONNECTING
  | OPEN
  | CLOSING
  | CLOSED
deriving DecidableEq, Repr

/-- The connector's mutable fields: `this.ws` abstracted to its ready state
(`none` models `ws === null`), `this.pingInterval` abstracted to whether the
heartbeat timer is running, and `this.reconnectAttempts`. -/
structure ConnectorState where
  url : String
  token : String
  ws : Option ReadyState
  pingActive : Bool
  reconnectAttempts : Nat
deriving DecidableEq, Repr

/-- `private baseReconnectMs = 1000`. -/
def baseReconnectMs : Nat := 1000

/-- `private maxReconnectMs = 5 * 60 * 1000`. -/
def maxReconnectMs : Nat := 5 * 60 * 1000

/-- `private maxReconnectAttempts = 0; // 0 = no limit for now`. -/
def maxReconnectAttempts : Nat := 0

/-- The delay `scheduleReconnect` computes at attempt counter `n`:
`Math.min(base * 2^n, max)`. -/
def reconnectDelay (n : Nat) : Nat :=
  min (baseReconnectMs * 2 ^ n) maxReconnectMs

namespace ClawatchConnector

/-- `send(frame)`: writes the frame iff `this.ws?.readyState === OPEN`,
otherwise silently drops it.  Returns the frames actually written. -/
def send (c : ConnectorState) (f : OutFrame) : List OutFrame :=
  if c.ws = some .OPEN then [f] else []

/-- `isConnected()`: `(this.ws?.readyState ?? CLOSED) === OPEN`. -/
def isConnected (c : ConnectorState) : Bool :=
  (c.ws.getD .CLOSED) == .OPEN

/-- `disconnect()`: `stopPing()`, close the transport if present, clear the
handle.  The boolean records whether `ws.close()` was invoked. -/
def disconnect (c : ConnectorState) : ConnectorState × Bool :=
  ({ c with pingActive := false, ws := none }, c.ws.isSome)

/-- `scheduleReconnect(onReconnect)`: gives up when a positive attempt
ceiling is reached (never, with the source's `maxReconnectAttempts = 0`),
otherwise computes `min(base * 2^attempts, max)`, increments the counter and
schedules the hook after that delay.  Returns the scheduled delay. -/
def scheduleReconnect (c : ConnectorState) : ConnectorState × Option Nat :=
  if maxReconnectAttempts > 0 ∧ c.reconnectAttempts ≥ maxReconnectAttempts then
    (c, none)
  else
    ({ c with reconnectAttempts := c.reconnectAttempts + 1 },
     some (min (baseReconnectMs * 2 ^ c.reconnectAttempts) maxReconnectMs))

/-- The Register frame built in `onopen`. -/
def registerFrame (c : ConnectorState) : OutFrame :=
  .register c.token "openclaw-clawatch" PLUGIN_VERSION

/-- `ws.onopen`: the transport is now open; the attempt counter is reset to
zero and the Register frame is sent. -/
def onopen (c : ConnectorState) : ConnectorState × List OutFrame :=
  let c' : ConnectorState := { c with ws := some .OPEN, reconnectAttempts := 0 }
  (c', send c' (registerFrame c))

/-- `handleFrame(frame)`: dispatch one decoded frame to the callbacks.
Unrecognized tags only produce a debug log (forward-compatible no-op). -/
def handleFrame (cbs : CallbacksShape) (f : InFrame) : List CbEvent :=
  match f with
  | .registered watches => [.onRegistered watches]
  | .error code message id => [.onError code message id]
  | .pong => [.onPong]
  | .unbound imei reason => [.onUnbound imei reason]
  | .message id imei text timestamp isCommand context =>
      (if cbs.hasOnDebug then [.onDebug "Clawatch received message"] else []) ++
        [.onMessage id imei text timestamp isCommand context]
  | .control_ack id ok =>
      if cbs.hasOnControlAck then [.onControlAck id ok] else []
  | .unknown _ =>
      if cbs.hasOnDebug then [.onDebug "Clawatch unknown frame type"] else []

/-- `ws.onmessage`: `JSON.parse` the payload inside `try`; a decode failure
(`parsed = none`) is caught and surfaced as a single non-fatal
`invalid_frame` error callback.  The connector state is untouched either
way: this handler never closes the connection and never throws. -/
def onmessage (cbs : CallbacksShape) (c : ConnectorState) (parsed : Option InFrame) :
    ConnectorState × List CbEvent :=
  match parsed with
  | some f => (c, handleFrame cbs f)
  | none => (c, [.onError (some "invalid_frame") "Invalid JSON from server" none])

/-- `ws.onclose`: stop the heartbeat, clear the transport handle, and (when an
`onReconnect` hook is supplied) schedule it with backoff.  Returns the
scheduled delay, if any. -/
def onclose (cbs : CallbacksShape) (c : ConnectorState) : ConnectorState × Option Nat :=
  let c' : ConnectorState := { c with pingActive := false, ws := none }
  if cbs.hasOnReconnect then scheduleReconnect c' else (c', none)

end ClawatchConnector

/-! ## connector.ts — the `connect()` promise

`connect()` installs a 15-second timeout, the `onopen`/`onmessage`/`onclose`/
`onerror` transport handlers, and wraps `onRegistered`/`onError` so that the
first meaningful response settles the returned promise.  The interplay of
those handlers is modelled as a step function on an explicit state: `ws` is
the transport handle, `timeoutArmed` is true while the 15-second timer has
neither fired nor been `clearTimeout`-ed, and `result` is the promise's
settlement (`none` = still pending; a settled promise ignores later
`resolve`/`reject` calls).  Backoff scheduling on close is covered separately
by `ClawatchConnector.scheduleReconnect` / `onclose`. -/

/-- Why the `connect()` promise settled. -/
inductive SettleCause where
  | resolved
  | rejectTimeout
  | rejectWsError
  | rejectAuth (message : String)
deriving DecidableEq, Repr

/-- Settling an already-settled JS promise is a no-op. -/
def settle (r : Option SettleCause) (v : SettleCause) : Option SettleCause :=
  match r with
  | some x => some x
  | none => some v

/-- State of one in-flight `connect()` call. -/
structure ConnectAttempt where
  ws : Option ReadyState
  timeoutArmed : Bool
  result : Option SettleCause
  pingActive : Bool
  reconnectAttempts : Nat
deriving DecidableEq, Repr

/-- The events the installed handlers react to: the 15-second timer firing,
the transport's open/error/close events, and a received payload (with
`none` for a payload that is not valid JSON). -/
inductive ConnEvent where
  | timeoutFires
  | wsOpen
  | wsError
  | wsClose
  | wsMessage (parsed : Option InFrame)
deriving DecidableEq, Repr

/-- `code === "invalid_token" || code === "unauthorized"`. -/
def fatalAuthCode (code : Option String) : Bool :=
  code == some "invalid_token" || code == some "unauthorized"

/-- One handler invocation of the `connect()` machinery:

* `timeoutFires`: the timer callback runs only if not cleared; it closes the
  socket and rejects only while `readyState === CONNECTING`.
* `wsOpen`: `clearTimeout`, reset the attempt counter (the Register frame is
  also sent; wire output is covered by `ClawatchConnector.onopen`).
* `wsError`: `clearTimeout` and reject with a transport error.
* `wsClose`: `stopPing()` and clear the handle (backoff covered separately).
* `wsMessage`: invalid JSON reaches the wrapped `onError` with the non-fatal
  `invalid_frame` code, which clears the timeout; a Registered frame clears
  the timeout, starts the heartbeat and resolves; an Error frame clears the
  timeout and rejects only for a fatal auth code; all other frames leave
  this state alone. -/
def connectStep (s : ConnectAttempt) (e : ConnEvent) : ConnectAttempt :=
  match e with
  | .timeoutFires =>
      if s.timeoutArmed then
        if s.ws = some .CONNECTING then
          { s with timeoutArmed := false, ws := some .CLOSING,
                   result := settle s.result .rejectTimeout }
        else { s with timeoutArmed := false }
      else s
  | .wsOpen => { s with ws := some .OPEN, timeoutArmed := false, reconnectAttempts := 0 }
  | .wsError => { s with timeoutArmed := false, result := settle s.result .rejectWsError }
  | .wsClose => { s with ws := none, pingActive := false }
  | .wsMessage parsed =>
      match parsed with
      | none => { s with timeoutArmed := false }
      | some (.registered _) =>
          { s with timeoutArmed := false, pingActive := true,
                   result := settle s.result .resolved }
      | some (.error code m _) =>
          if fatalAuthCode code then
            { s with timeoutArmed := false, result := settle s.result (.rejectAuth m) }
          else { s with timeoutArmed := false }
      | some _ => s

/-- Process a sequence of handler invocations in receipt order. -/
def runConnect (s : ConnectAttempt) (evs : List ConnEvent) : ConnectAttempt :=
  evs.foldl connectStep s

/-! ## runtime.ts — `createClawatchRuntime` -/

/-- types.ts `ClawatchConfig` (`sessionKeyPref` is `sessionKeyPrefix` in the
source, renamed for Lean). -/
structure ClawatchConfig where
  enabled : Option Bool
  apiUrl : String
  deviceCode : Option String
  apiToken : Option String
  agentId : Option String
  sessionKeyPref : Option String
  ttsSystemPrompt : Option String
  interimStatusEnabled : Option Bool
deriving DecidableEq, Repr

/-- `Map.set` on the `sessionKeyToImei` map, modelled as an association list
in insertion order. -/
def mapSet (m : List (String × String)) (k v : String) : List (String × String) :=
  if m.any (fun kv => kv.1 == k) then
    m.map (fun kv => if kv.1 == k then (k, v) else kv)
  else m ++ [(k, v)]

/-- `Map.get` (with `?? null`) on the `sessionKeyToImei` map. -/
def mapGet (m : List (String × String)) (k : String) : Option String :=
  (m.find? (fun kv => kv.1 == k)).map (fun kv => kv.2)

/-- The closure state of `createClawatchRuntime`: `connector` (null until
`doConnect`), the paired-watch roster, the "intentionally disconnected" flag
`disconnecting`, and the `sessionKey -> IMEI` map. -/
structure RuntimeState where
  connector : Option ConnectorState
  pairedWatches : List WatchInfo
  disconnecting : Bool
  sessionKeyToImei : List (String × String)
deriving DecidableEq, Repr

namespace Runtime

/-- `connector?.send(frame)`: silently does nothing when `connector` is null;
otherwise defers to the connector's best-effort `send`. -/
def sendViaConnector (st : RuntimeState) (f : OutFrame) : List OutFrame :=
  match st.connector with
  | some c => ClawatchConnector.send c f
  | none => []

/-- `isConnected()`: `connector?.isConnected() ?? false`. -/
def isConnected (st : RuntimeState) : Bool :=
  match st.connector with
  | some c => ClawatchConnector.isConnected c
  | none => false

/-- `handleInboundMessage(id, imei, text, ...)` together with the settlement
of the injected `onInboundMessage` promise (`outcome`): the session key is
derived from the configured prefix (`?? "watch:"`) and recorded under both
the bare and the `session:`-prefixed alias; then a resolved handler sends one
Reply frame with `done: true` and a rejected handler sends one Error frame
with code `agent_error`, both through `connector?.send` and both carrying the
inbound id. -/
def handleInboundMessage (cfg : ClawatchConfig) (st : RuntimeState)
    (id imei text : String) (outcome : Except String String) :
    RuntimeState × List OutFrame :=
  let sessionKey := getSessionKey (cfg.sessionKeyPref.getD "watch:") imei
  let m' := mapSet (mapSet st.sessionKeyToImei sessionKey imei) ("session:" ++ sessionKey) imei
  let st' : RuntimeState := { st with sessionKeyToImei := m' }
  match outcome with
  | .ok replyText => (st', sendViaConnector st' (.reply id replyText true))
  | .error errMsg => (st', sendViaConnector st' (.error id errMsg (some "agent_error")))

/-- `connectorCallbacks.onRegistered`: replace the roster wholesale with the
watches of the Registered frame. -/
def onRegistered (st : RuntimeState) (watches : List WatchInfo) : RuntimeState :=
  { st with pairedWatches := watches.map (fun w => ⟨w.imei, w.label⟩) }

/-- `connectorCallbacks.onUnbound`: remove the entry with the given IMEI from
the roster. -/
def onUnbound (st : RuntimeState) (imei : String) (_reason : Option String) :
    RuntimeState :=
  { st with pairedWatches := st.pairedWatches.filter (fun w => w.imei != imei) }

/-- `attemptReconnect()`'s synchronous effect: a no-op while `disconnecting`
is set; otherwise it drops the old connector reference and launches
`doConnect()` (the boolean records whether a new connect was started). -/
def attemptReconnect (st : RuntimeState) : RuntimeState × Bool :=
  if st.disconnecting then (st, false)
  else ({ st with connector := none }, true)

/-- The manual fallback installed when `connect()` rejects: after one second
it calls `attemptReconnect()` only if not disconnecting, a connector exists,
and it is not connected. -/
def manualReconnectFallback (st : RuntimeState) : RuntimeState × Bool :=
  if !st.disconnecting && st.connector.isSome && !(isConnected st) then
    attemptReconnect st
  else (st, false)

/-- Runtime `disconnect()`: set the `disconnecting` flag, call the
connector's own `disconnect` (the boolean records whether a transport was
actually closed), clear the connector reference, the roster, and the session
key map. -/
def disconnect (st : RuntimeState) : RuntimeState × Bool :=
  let closed :=
    match st.connector with
    | some c => (ClawatchConnector.disconnect c).2
    | none => false
  ({ st with disconnecting := true, connector := none,
             pairedWatches := [], sessionKeyToImei := [] }, closed)

/-- The state after `disconnect()`, without the close-effect record. -/
def disconnectState (st : RuntimeState) : RuntimeState :=
  (disconnect st).1

/-- `getPairedWatches()`: a snapshot copy of the roster. -/
def getPairedWatches (st : RuntimeState) : List WatchInfo :=
  st.pairedWatches

/-- The correlation id of a Control frame,
`ctrl-${Date.now()}-${random suffix}`. -/
def ctrlId (now : Nat) (rand : String) : String :=
  "ctrl-" ++ toString now ++ "-" ++ rand

/-- The correlation id of a Push frame,
`push-${Date.now()}-${random suffix}`. -/
def pushId (now : Nat) (rand : String) : String :=
  "push-" ++ toString now ++ "-" ++ rand

/-- `sendReply(id, text, done)`. -/
def sendReply (st : RuntimeState) (id text : String) (done : Bool) : List OutFrame :=
  sendViaConnector st (.reply id text done)

/-- `sendControl(params)`: generates a fresh correlation id and hands one
Control frame to `connector?.send`.  The function body contains no `throw`
and no precondition check, so the returned promise always resolves: the
result is always `Except.ok` of the frames actually written. -/
def sendControl (st : RuntimeState) (now : Nat) (rand : String)
    (action imei : String) (params : Option ControlParams) :
    Except String (List OutFrame) :=
  .ok (sendViaConnector st (.control (ctrlId now rand) action imei params))

/-- `sendPush(imei, text)`: throws synchronously when not connected or when
the IMEI is not in the roster; otherwise sends one Push frame with a fresh
correlation id. -/
def sendPush (st : RuntimeState) (now : Nat) (rand : String)
    (imei text : String) : Except String (List OutFrame) :=
  if !(isConnected st) then .error "Clawatch not connected"
  else if !(st.pairedWatches.any (fun w => w.imei == imei)) then
    .error ("IMEI " ++ imei ++ " not paired")
  else .ok (sendViaConnector st (.push (pushId now rand) imei text))

/-- `getImeiFromSessionKey(sessionKey)`. -/
def getImeiFromSessionKey (st : RuntimeState) (sessionKey : String) : Option String :=
  mapGet st.sessionKeyToImei sessionKey

end Runtime

/-! ## Concrete states used to instantiate the theorems -/

/-- A connector whose transport is open (post-registration steady state). -/
def sampleConnectorOpen : ConnectorState :=
  ⟨DEFAULT_API_URL, "tok", some .OPEN, true, 0⟩

/-- The example watch of the spec. -/
def sampleWatch : WatchInfo := ⟨"860000035452456", none⟩

/-- A connected runtime with one paired watch. -/
def sampleRuntimeConnected : RuntimeState :=
  ⟨some sampleConnectorOpen, [sampleWatch], false, []⟩

/-- A runtime that was never connected. -/
def sampleRuntimeIdle : RuntimeState := ⟨none, [], false, []⟩

/-- A resolved configuration with the default session-key prefix. -/
def sampleConfig : ClawatchConfig :=
  ⟨some true, DEFAULT_API_URL, none, some "tok", some DEFAULT_AGENT_ID,
   some DEFAULT_SESSION_PREF, none, some true⟩

/-- A `connect()` in flight: transport open, Register sent, timer armed,
promise pending (awaiting registration). -/
def sampleAwaitingRegistration : ConnectAttempt :=
  ⟨some .OPEN, true, none, false, 0⟩

/-! ## Helper lemmas -/

@[simp]
theorem startsWithL_nil (s : List Char) : startsWithL s [] = true := by
  cases s <;> rfl

theorem startsWithL_append_self (p s : List Char) : startsWithL (p ++ s) p = true := by
  induction p with
  | nil => simp
  | cons c cs ih => simp [startsWithL, ih]

theorem data_append (s t : String) : (s ++ t).data = s.data ++ t.data := by
  cases s; cases t; rfl

theorem mk_data (s : String) : String.mk s.data = s := by
  cases s; rfl

theorem clawatch_data :
    "clawatch:".data = ['c', 'l', 'a', 'w', 'a', 't', 'c', 'h', ':'] := rfl

theorem session_data :
    "session:".data = ['s', 'e', 's', 's', 'i', 'o', 'n', ':'] := rfl

/-- Round trip through the parser at the default prefix. -/
theorem parse_getSessionKey_default (i : String)
    (hlen : i.data.length = 15) (hdig : i.data.all Char.isDigit = true) :
    parseImeiFromSessionKey (getSessionKey DEFAULT_SESSION_PREF i) = some i := by
  unfold parseImeiFromSessionKey getSessionKey DEFAULT_SESSION_PREF
  rw [data_append, clawatch_data, session_data]
  simp [startsWithL, List.drop, hlen, hdig, mk_data]

/-- Round trip through the parser at the default prefix, behind the legacy
`session:` alias. -/
theorem parse_getSessionKey_session_alias (i : String)
    (hlen : i.data.length = 15) (hdig : i.data.all Char.isDigit = true) :
    parseImeiFromSessionKey ("session:" ++ getSessionKey DEFAULT_SESSION_PREF i) =
      some i := by
  unfold parseImeiFromSessionKey getSessionKey DEFAULT_SESSION_PREF
  rw [data_append, data_append, clawatch_data, session_data]
  simp [startsWithL, List.drop, hlen, hdig, mk_data]

theorem connector_isConnected_iff (c : ConnectorState) :
    ClawatchConnector.isConnected c = true ↔ c.ws = some .OPEN := by
  cases h : c.ws with
  | none => simp [ClawatchConnector.isConnected, h]
  | some r => cases r <;> simp [ClawatchConnector.isConnected, h]

/-- `connector?.send` delivers exactly the given frame when the runtime is
connected and nothing otherwise. -/
theorem sendViaConnector_eq (st : RuntimeState) (f : OutFrame) :
    Runtime.sendViaConnector st f =
      if Runtime.isConnected st = true then [f] else [] := by
  cases hc : st.connector with
  | none => simp [Runtime.sendViaConnector, Runtime.isConnected, hc]
  | some c =>
      by_cases hw : c.ws = some .OPEN
      · simp [Runtime.sendViaConnector, Runtime.isConnected, hc,
          ClawatchConnector.send, hw, (connector_isConnected_iff c).mpr hw]
      · have : ClawatchConnector.isConnected c = false := by
          cases h : ClawatchConnector.isConnected c
          · rfl
          · exact absurd ((connector_isConnected_iff c).mp h) hw
        simp [Runtime.sendViaConnector, Runtime.isConnected, hc,
          ClawatchConnector.send, hw, this]

/-! ## Claim C2 -/

/-- Claim C2 is false as stated: with the configurable session-key prefix
`"watch:"` (the very fallback `runtime.ts` uses when the config omits the
field) and a 15-digit IMEI, `parseImeiFromSessionKey` does not invert
`getSessionKey` — the parser only strips the fixed `clawatch:` head, so it
returns `none`, not the IMEI. -/
theorem C2_counterexample :
    ("860000035452456" : String).data.length = 15 ∧
    ("860000035452456" : String).data.all Char.isDigit = true ∧
    parseImeiFromSessionKey (getSessionKey "watch:" "860000035452456") = none := by
  refine ⟨by decide, by decide, by decide⟩

/-- Claim C2 (amended): for every string of exactly 15 ASCII digits and the
**default** session-key prefix `clawatch:`, `parseImeiFromSessionKey`
inverts `getSessionKey`, both directly and through the legacy `session:`
super-prefix alias; for other configured prefixes the round trip fails,
because the parser matches only the fixed `clawatch:` head. -/
theorem C2_round_trip_default (i : String)
    (hlen : i.data.length = 15) (hdig : i.data.all Char.isDigit = true) :
    parseImeiFromSessionKey (getSessionKey DEFAULT_SESSION_PREF i) = some i ∧
    parseImeiFromSessionKey ("session:" ++ getSessionKey DEFAULT_SESSION_PREF i) =
      some i :=
  ⟨parse_getSessionKey_default i hlen hdig,
   parse_getSessionKey_session_alias i hlen hdig⟩

/-- Witness for C2: the round trip evaluated at the spec's example IMEI. -/
theorem C2_round_trip_default_witness :
    ("860000035452456" : String).data.length = 15 ∧
    parseImeiFromSessionKey (getSessionKey DEFAULT_SESSION_PREF "860000035452456") =
      some "860000035452456" :=
  ⟨by decide, (C2_round_trip_default "860000035452456" (by decide) (by decide)).1⟩

/-! ## Claim C7 -/

/-- Claim C7: a wire payload that is not valid JSON (`parsed = none`) makes
frame processing surface exactly one error callback, with code
`invalid_frame`; the connector state — in particular the transport handle —
is unchanged for every payload, so the connection is never closed by this
path; and `onmessage` is a total function, so nothing escapes the
frame-processing path. -/
theorem C7_invalid_json (cbs : CallbacksShape) (c : ConnectorState) :
    ClawatchConnector.onmessage cbs c none =
      (c, [CbEvent.onError (some "invalid_frame") "Invalid JSON from server" none]) ∧
    (∀ parsed, (ClawatchConnector.onmessage cbs c parsed).1 = c) := by
  refine ⟨rfl, ?_⟩
  intro parsed
  cases parsed <;> rfl

/-! ## Claim C8 -/

/-- Claim C8: `disconnect()` at both layers is safe and idempotent.  The
connector's `disconnect` stops the heartbeat, clears the transport handle,
invokes `ws.close()` exactly when a transport was present, and leaves
`isConnected() = false`; running it again changes nothing.  The runtime's
`disconnect` likewise leaves `isConnected() = false` and is idempotent, and
any positive number of consecutive calls — including on a never-connected
runtime — still ends with `isConnected() = false`.  All the functions
involved are total, so no call can throw. -/
theorem C8_disconnect_safe :
    (∀ c : ConnectorState,
        (ClawatchConnector.disconnect c).1.pingActive = false ∧
        (ClawatchConnector.disconnect c).1.ws = none ∧
        (ClawatchConnector.disconnect c).2 = c.ws.isSome ∧
        ClawatchConnector.isConnected (ClawatchConnector.disconnect c).1 = false ∧
        (ClawatchConnector.disconnect (ClawatchConnector.disconnect c).1).1 =
          (ClawatchConnector.disconnect c).1) ∧
    (∀ st : RuntimeState,
        Runtime.isConnected (Runtime.disconnectState st) = false ∧
        Runtime.disconnectState (Runtime.disconnectState st) =
          Runtime.disconnectState st) ∧
    (∀ st : RuntimeState, ∀ n : Nat,
        Runtime.isConnected (Runtime.disconnectState^[n + 1] st) = false) := by
  refine ⟨?_, ?_, ?_⟩
  · intro c
    refine ⟨rfl, rfl, rfl, ?_, rfl⟩
    simp [ClawatchConnector.disconnect, ClawatchConnector.isConnected]
  · intro st
    exact ⟨rfl, rfl⟩
  · intro st n
    rw [Function.iterate_succ_apply']
    rfl

/-! ## Claim C1 -/

/-- Claim C1: while connected, an inbound Message with id `m` answered by a
handler that resolves with `r` makes the runtime send exactly one Reply frame
`{id: m, text: r, done: true}` (and no Error frame); a handler that rejects
with message `e` makes it send exactly one Error frame
`{id: m, code: agent_error, message: e}` (and no Reply frame); every frame
sent either way carries the inbound message's id `m` as its correlation
id. -/
theorem C1_inbound_round_trip (cfg : ClawatchConfig) (st : RuntimeState)
    (m i t : String) (hconn : Runtime.isConnected st = true) :
    (∀ r, (Runtime.handleInboundMessage cfg st m i t (.ok r)).2 =
        [OutFrame.reply m r true]) ∧
    (∀ e, (Runtime.handleInboundMessage cfg st m i t (.error e)).2 =
        [OutFrame.error m e (some "agent_error")]) ∧
    (∀ r, ((Runtime.handleInboundMessage cfg st m i t (.ok r)).2.filter
        isErrorFrame) = []) ∧
    (∀ e, ((Runtime.handleInboundMessage cfg st m i t (.error e)).2.filter
        isReplyFrame) = []) ∧
    (∀ o, ∀ f ∈ (Runtime.handleInboundMessage cfg st m i t o).2,
        frameId f = some m) := by
  have hsend : ∀ (m' : List (String × String)) (f : OutFrame),
      Runtime.sendViaConnector { st with sessionKeyToImei := m' } f = [f] := by
    intro m' f
    rw [sendViaConnector_eq]
    have : Runtime.isConnected { st with sessionKeyToImei := m' } =
        Runtime.isConnected st := rfl
    rw [this, hconn]
    simp
  refine ⟨?_, ?_, ?_, ?_, ?_⟩
  · intro r; simp [Runtime.handleInboundMessage, hsend]
  · intro e; simp [Runtime.handleInboundMessage, hsend]
  · intro r; simp [Runtime.handleInboundMessage, hsend, isErrorFrame]
  · intro e; simp [Runtime.handleInboundMessage, hsend, isReplyFrame]
  · intro o f hf
    cases o with
    | ok r =>
        simp [Runtime.handleInboundMessage, hsend] at hf
        simp [hf, frameId]
    | error e =>
        simp [Runtime.handleInboundMessage, hsend] at hf
        simp [hf, frameId]

/-- Witness for C1: the spec's example message on a connected runtime. -/
theorem C1_inbound_round_trip_witness :
    Runtime.isConnected sampleRuntimeConnected = true ∧
    (Runtime.handleInboundMessage sampleConfig sampleRuntimeConnected
        "m1" "860000035452456" "hello" (.ok "hi there")).2 =
      [OutFrame.reply "m1" "hi there" true] ∧
    (Runtime.handleInboundMessage sampleConfig sampleRuntimeConnected
        "m1" "860000035452456" "hello" (.error "boom")).2 =
      [OutFrame.error "m1" "boom" (some "agent_error")] :=
  ⟨by decide,
   (C1_inbound_round_trip sampleConfig sampleRuntimeConnected
      "m1" "860000035452456" "hello" (by decide)).1 "hi there",
   (C1_inbound_round_trip sampleConfig sampleRuntimeConnected
      "m1" "860000035452456" "hello" (by decide)).2.1 "boom"⟩

/-! ## Claim C4 -/

/-- Claim C4: `sendPush` throws synchronously (sending nothing) when the
session is not connected or when the IMEI is not in the paired roster; when
connected with the IMEI in the roster — in particular after a Registered
frame whose watches contain it — it succeeds and emits exactly one Push
frame carrying that IMEI, the text, and the freshly generated correlation
id. -/
theorem C4_sendPush (st : RuntimeState) (now : Nat) (rand : String)
    (imei text : String) :
    (Runtime.isConnected st = false →
        Runtime.sendPush st now rand imei text = .error "Clawatch not connected") ∧
    (Runtime.isConnected st = true →
      st.pairedWatches.any (fun w => w.imei == imei) = false →
        Runtime.sendPush st now rand imei text =
          .error ("IMEI " ++ imei ++ " not paired")) ∧
    (Runtime.isConnected st = true →
      st.pairedWatches.any (fun w => w.imei == imei) = true →
        Runtime.sendPush st now rand imei text =
          .ok [OutFrame.push (Runtime.pushId now rand) imei text]) ∧
    (∀ watches : List WatchInfo, Runtime.isConnected st = true →
      watches.any (fun w => w.imei == imei) = true →
        Runtime.sendPush (Runtime.onRegistered st watches) now rand imei text =
          .ok [OutFrame.push (Runtime.pushId now rand) imei text]) := by
  refine ⟨?_, ?_, ?_, ?_⟩
  · intro h; simp [Runtime.sendPush, h]
  · intro h hp; simp [Runtime.sendPush, h, hp]
  · intro h hp
    simp [Runtime.sendPush, h, hp, sendViaConnector_eq]
  · intro watches h hp
    have hc : Runtime.isConnected (Runtime.onRegistered st watches) =
        Runtime.isConnected st := rfl
    have hr : (Runtime.onRegistered st watches).pairedWatches.any
        (fun w => w.imei == imei) = true := by
      simp only [Runtime.onRegistered, List.any_map]
      simpa [Function.comp] using hp
    simp [Runtime.sendPush, hc, h, hr, sendViaConnector_eq]

/-- Witness for C4: pushing to the paired sample watch on a connected
runtime, and to the same IMEI while disconnected. -/
theorem C4_sendPush_witness :
    Runtime.isConnected sampleRuntimeConnected = true ∧
    sampleRuntimeConnected.pairedWatches.any
      (fun w => w.imei == "860000035452456") = true ∧
    Runtime.sendPush sampleRuntimeConnected 7 "r" "860000035452456" "hi" =
      .ok [OutFrame.push (Runtime.pushId 7 "r") "860000035452456" "hi"] ∧
    Runtime.isConnected sampleRuntimeIdle = false ∧
    Runtime.sendPush sampleRuntimeIdle 7 "r" "860000035452456" "hi" =
      .error "Clawatch not connected" :=
  ⟨by decide, by decide,
   (C4_sendPush sampleRuntimeConnected 7 "r" "860000035452456" "hi").2.2.1
     (by decide) (by decide),
   by decide,
   (C4_sendPush sampleRuntimeIdle 7 "r" "860000035452456" "hi").1 (by decide)⟩

/-! ## Claim C5 -/

/-- Claim C5 is false as stated, in both halves.  First, `sendControl` on a
disconnected session does not reject: it resolves (`Except.ok`) and the
frame is silently dropped.  Second, no operation validates the 15-digit IMEI
shape: `sendControl` on a connected session with the 3-character IMEI
`"abc"` resolves and actually emits a Control frame carrying `"abc"`, rather
than rejecting before any frame is sent. -/
theorem C5_counterexample :
    Runtime.isConnected sampleRuntimeIdle = false ∧
    Runtime.sendControl sampleRuntimeIdle 0 "r" "set_interval" "notanimei" none =
      .ok [] ∧
    Runtime.isConnected sampleRuntimeConnected = true ∧
    ¬ (("abc" : String).data.length = 15) ∧
    Runtime.sendControl sampleRuntimeConnected 0 "r" "set_interval" "abc" none =
      .ok [OutFrame.control (Runtime.ctrlId 0 "r") "set_interval" "abc" none] := by
  refine ⟨by decide, by rfl, by decide, by decide, by rfl⟩

/-- Claim C5 (amended): `sendControl` never rejects — it resolves with
`Except.ok` in every state.  While disconnected it sends no frame over the
wire (the connector's best-effort `send` silently drops it); while connected
it emits exactly one Control frame regardless of the IMEI's shape, because
neither `sendControl` nor `sendPush` performs 15-digit validation.  The only
synchronous rejections before a frame is sent are `sendPush`'s two
precondition checks: not connected, and IMEI not in the paired roster (the
latter is what rejects non-15-digit strings in practice, since the roster
holds only real IMEIs). -/
theorem C5_sendControl_behavior (st : RuntimeState) (now : Nat) (rand : String)
    (action imei : String) (params : Option ControlParams) :
    Runtime.sendControl st now rand action imei params =
      .ok (if Runtime.isConnected st = true
           then [OutFrame.control (Runtime.ctrlId now rand) action imei params]
           else []) ∧
    (∀ text, Runtime.isConnected st = false →
        Runtime.sendPush st now rand imei text =
          .error "Clawatch not connected") ∧
    (∀ text, Runtime.isConnected st = true →
      st.pairedWatches.any (fun w => w.imei == imei) = false →
        Runtime.sendPush st now rand imei text =
          .error ("IMEI " ++ imei ++ " not paired")) := by
  refine ⟨?_, ?_, ?_⟩
  · rw [Runtime.sendControl, sendViaConnector_eq]
  · intro text h; simp [Runtime.sendPush, h]
  · intro text h hp; simp [Runtime.sendPush, h, hp]

/-- Witness for C5: the amended statement evaluated on a connected runtime
with a non-15-digit IMEI absent from the roster. -/
theorem C5_sendControl_behavior_witness :
    Runtime.sendControl sampleRuntimeConnected 3 "z" "get_config" "abc" none =
      .ok [OutFrame.control (Runtime.ctrlId 3 "z") "get_config" "abc" none] ∧
    Runtime.isConnected sampleRuntimeConnected = true ∧
    Runtime.sendPush sampleRuntimeConnected 3 "z" "abc" "hello" =
      .error ("IMEI " ++ "abc" ++ " not paired") := by
  refine ⟨?_, by decide, ?_⟩
  · have h := (C5_sendControl_behavior sampleRuntimeConnected 3 "z"
      "get_config" "abc" none).1
    rwa [if_pos (by decide)] at h
  · exact (C5_sendControl_behavior sampleRuntimeConnected 3 "z"
      "get_config" "abc" none).2.2 "hello" (by decide) (by decide)

/-! ## Claim C3 -/

theorem scheduleReconnect_eq (c : ConnectorState) :
    ClawatchConnector.scheduleReconnect c =
      ({ c with reconnectAttempts := c.reconnectAttempts + 1 },
       some (reconnectDelay c.reconnectAttempts)) := by
  simp [ClawatchConnector.scheduleReconnect, maxReconnectAttempts, reconnectDelay]

theorem onclose_eq (cbs : CallbacksShape) (hr : cbs.hasOnReconnect = true)
    (c : ConnectorState) :
    ClawatchConnector.onclose cbs c =
      ({ c with pingActive := false, ws := none,
                reconnectAttempts := c.reconnectAttempts + 1 },
       some (reconnectDelay c.reconnectAttempts)) := by
  simp [ClawatchConnector.onclose, hr, scheduleReconnect_eq]

theorem iterate_onclose_attempts (cbs : CallbacksShape) (hr : cbs.hasOnReconnect = true)
    (n : Nat) (s : ConnectorState) :
    ((fun s => (ClawatchConnector.onclose cbs s).1)^[n] s).reconnectAttempts =
      s.reconnectAttempts + n := by
  induction n generalizing s with
  | zero => simp
  | succ k ih =>
      rw [Function.iterate_succ_apply]
      rw [ih ((ClawatchConnector.onclose cbs s).1)]
      rw [onclose_eq cbs hr s]
      simp
      omega

/-- Claim C3: with a reconnect hook installed, the delay scheduled by the
`n`-th consecutive unplanned close after a successful open (counting from
`n = 0`) is `reconnectDelay n = min(1000 * 2^n, 300000)` milliseconds; the
delays are monotonically non-decreasing in `n` and never exceed the
5-minute cap; a successful transport open resets the attempt counter to
zero, so the schedule restarts at the 1-second base. -/
theorem C3_backoff (cbs : CallbacksShape) (n m : Nat)
    (hr : cbs.hasOnReconnect = true) (hnm : n ≤ m) :
    (∀ c, (ClawatchConnector.onclose cbs
        ((fun s => (ClawatchConnector.onclose cbs s).1)^[n]
          (ClawatchConnector.onopen c).1)).2 = some (reconnectDelay n)) ∧
    reconnectDelay n = min (1000 * 2 ^ n) 300000 ∧
    reconnectDelay n ≤ reconnectDelay m ∧
    reconnectDelay n ≤ 300000 ∧
    (∀ c, (ClawatchConnector.onopen c).1.reconnectAttempts = 0) ∧
    (∀ c, (ClawatchConnector.onclose cbs (ClawatchConnector.onopen c).1).2 =
        some 1000) := by
  refine ⟨?_, ?_, ?_, ?_, ?_, ?_⟩
  · intro c
    have h0 : ((fun s => (ClawatchConnector.onclose cbs s).1)^[n]
        (ClawatchConnector.onopen c).1).reconnectAttempts = n := by
      rw [iterate_onclose_attempts cbs hr n (ClawatchConnector.onopen c).1]
      have hX : (ClawatchConnector.onopen c).1.reconnectAttempts = 0 := rfl
      rw [hX]
      omega
    rw [onclose_eq cbs hr]
    simp [h0]
  · simp [reconnectDelay, baseReconnectMs, maxReconnectMs]
  · unfold reconnectDelay
    exact min_le_min
      (Nat.mul_le_mul_left baseReconnectMs
        (Nat.pow_le_pow_right (by norm_num) hnm)) le_rfl
  · have h := min_le_right (baseReconnectMs * 2 ^ n) maxReconnectMs
    simpa [reconnectDelay, maxReconnectMs] using h
  · intro c; rfl
  · intro c
    rw [onclose_eq cbs hr]
    have : (ClawatchConnector.onopen c).1.reconnectAttempts = 0 := rfl
    rw [this]
    simp [reconnectDelay, baseReconnectMs, maxReconnectMs]

/-- Witness for C3: backoff evaluated with the runtime's callback shape at
attempts 2 and 5 and at the sample connector. -/
theorem C3_backoff_witness :
    (⟨false, true, true⟩ : CallbacksShape).hasOnReconnect = true ∧ 2 ≤ 5 ∧
    reconnectDelay 2 ≤ reconnectDelay 5 ∧
    (ClawatchConnector.onclose ⟨false, true, true⟩
        (ClawatchConnector.onopen sampleConnectorOpen).1).2 = some 1000 :=
  ⟨rfl, by decide,
   (C3_backoff ⟨false, true, true⟩ 2 5 rfl (by decide)).2.2.1,
   (C3_backoff ⟨false, true, true⟩ 2 5 rfl (by decide)).2.2.2.2.2
     sampleConnectorOpen⟩

/-! ## Claim C6 -/

/-- Claim C6: a Registered frame replaces the roster wholesale — the new
roster depends only on the frame's watches, and equals exactly the watches
it carries; an Unbound frame removes precisely the entries with the given
IMEI and is a no-op when no such entry exists; registering the single watch
`860000035452456` and then unbinding it leaves the roster empty. -/
theorem C6_roster (st : RuntimeState) :
    (∀ st' watches, (Runtime.onRegistered st watches).pairedWatches =
        (Runtime.onRegistered st' watches).pairedWatches) ∧
    (∀ watches, (Runtime.onRegistered st watches).pairedWatches =
        watches.map (fun w => ⟨w.imei, w.label⟩)) ∧
    (∀ imei reason w, w ∈ (Runtime.onUnbound st imei reason).pairedWatches ↔
        (w ∈ st.pairedWatches ∧ w.imei ≠ imei)) ∧
    (∀ imei reason, (∀ w ∈ st.pairedWatches, w.imei ≠ imei) →
        Runtime.onUnbound st imei reason = st) ∧
    (∀ reason, (Runtime.onUnbound
        (Runtime.onRegistered st [⟨"860000035452456", none⟩])
        "860000035452456" reason).pairedWatches = []) := by
  refine ⟨fun st' watches => rfl, fun watches => rfl, ?_, ?_, ?_⟩
  · intro imei reason w
    simp [Runtime.onUnbound, List.mem_filter, bne_iff_ne]
  · intro imei reason h
    have hf : st.pairedWatches.filter (fun w => w.imei != imei) =
        st.pairedWatches :=
      List.filter_eq_self.mpr (fun w hw => by simpa [bne_iff_ne] using h w hw)
    show { st with pairedWatches :=
      st.pairedWatches.filter (fun w => w.imei != imei) } = st
    rw [hf]
  · intro reason
    simp [Runtime.onRegistered, Runtime.onUnbound]

/-- Witness for C6: unbinding from an empty roster is a no-op, and the
register-then-unbind scenario of the spec leaves the roster empty. -/
theorem C6_roster_witness :
    Runtime.onUnbound sampleRuntimeIdle "860000035452456" none =
      sampleRuntimeIdle ∧
    (Runtime.onUnbound
        (Runtime.onRegistered sampleRuntimeIdle [⟨"860000035452456", none⟩])
        "860000035452456" none).pairedWatches = [] :=
  ⟨(C6_roster sampleRuntimeIdle).2.2.2.1 "860000035452456" none
     (by simp [sampleRuntimeIdle]),
   (C6_roster sampleRuntimeIdle).2.2.2.2 none⟩

/-! ## Claim C9 -/

/-- Claim C9: once the runtime's `disconnecting` flag is set, every
invocation of the reconnect hook — directly or through the manual timeout
fallback, any number of racing times — is a no-op: state is unchanged and no
new connect is launched; moreover `disconnect()` sets the flag and leaves
the connector reference null, so subsequent hook invocations keep it
null. -/
theorem C9_reconnect_noop (st : RuntimeState) (h : st.disconnecting = true) :
    Runtime.attemptReconnect st = (st, false) ∧
    Runtime.manualReconnectFallback st = (st, false) ∧
    (Runtime.disconnectState st).disconnecting = true ∧
    Runtime.attemptReconnect (Runtime.disconnectState st) =
      (Runtime.disconnectState st, false) ∧
    Runtime.manualReconnectFallback (Runtime.disconnectState st) =
      (Runtime.disconnectState st, false) ∧
    (Runtime.disconnectState st).connector = none := by
  refine ⟨?_, ?_, rfl, ?_, ?_, rfl⟩
  · simp [Runtime.attemptReconnect, h]
  · simp [Runtime.manualReconnectFallback, h]
  · simp [Runtime.attemptReconnect, Runtime.disconnectState, Runtime.disconnect]
  · simp [Runtime.manualReconnectFallback, Runtime.disconnectState,
      Runtime.disconnect]

/-- Witness for C9: the hook applied right after `disconnect()` on the
connected sample runtime. -/
theorem C9_reconnect_noop_witness :
    (Runtime.disconnectState sampleRuntimeConnected).disconnecting = true ∧
    Runtime.attemptReconnect (Runtime.disconnectState sampleRuntimeConnected) =
      (Runtime.disconnectState sampleRuntimeConnected, false) :=
  ⟨rfl, (C9_reconnect_noop (Runtime.disconnectState sampleRuntimeConnected)
     rfl).1⟩

/-! ## Claim C10 -/

theorem settle_ne_timeout (r : Option SettleCause) (v : SettleCause)
    (hv : v ≠ SettleCause.rejectTimeout)
    (hr : r ≠ some SettleCause.rejectTimeout) :
    settle r v ≠ some SettleCause.rejectTimeout := by
  cases r with
  | none => simpa [settle] using hv
  | some x => simpa [settle] using hr

theorem connectStep_no_timeout (s : ConnectAttempt) (e : ConnEvent)
    (h1 : s.timeoutArmed = false)
    (h2 : s.result ≠ some SettleCause.rejectTimeout) :
    (connectStep s e).timeoutArmed = false ∧
    (connectStep s e).result ≠ some SettleCause.rejectTimeout := by
  cases e with
  | timeoutFires =>
      have hstep : connectStep s .timeoutFires = s := by
        simp [connectStep, h1]
      rw [hstep]
      exact ⟨h1, h2⟩
  | wsOpen => exact ⟨rfl, h2⟩
  | wsError => exact ⟨rfl, settle_ne_timeout _ _ (by decide) h2⟩
  | wsClose => exact ⟨h1, h2⟩
  | wsMessage parsed =>
      cases parsed with
      | none => exact ⟨rfl, h2⟩
      | some f =>
          cases f with
          | registered w => exact ⟨rfl, settle_ne_timeout _ _ (by decide) h2⟩
          | error code msg id =>
              cases hf : fatalAuthCode code with
              | true =>
                  have hstep : connectStep s (.wsMessage (some (.error code msg id))) =
                      { s with timeoutArmed := false,
                               result := settle s.result (.rejectAuth msg) } := by
                    simp [connectStep, hf]
                  rw [hstep]
                  exact ⟨rfl, settle_ne_timeout _ _ (by simp) h2⟩
              | false =>
                  have hstep : connectStep s (.wsMessage (some (.error code msg id))) =
                      { s with timeoutArmed := false } := by
                    simp [connectStep, hf]
                  rw [hstep]
                  exact ⟨rfl, h2⟩
          | pong => exact ⟨h1, h2⟩
          | unbound imei reason => exact ⟨h1, h2⟩
          | message id imei text ts cmd ctx => exact ⟨h1, h2⟩
          | control_ack id ok => exact ⟨h1, h2⟩
          | unknown tag => exact ⟨h1, h2⟩

theorem runConnect_no_timeout (evs : List ConnEvent) (s : ConnectAttempt)
    (h1 : s.timeoutArmed = false)
    (h2 : s.result ≠ some SettleCause.rejectTimeout) :
    (runConnect s evs).result ≠ some SettleCause.rejectTimeout := by
  induction evs generalizing s with
  | nil => exact h2
  | cons e rest ih =>
      have h := connectStep_no_timeout s e h1 h2
      exact ih (connectStep s e) h.1 h.2

theorem connectStep_settles_only (s : ConnectAttempt) (e : ConnEvent)
    (hp : s.result = none) (hs : (connectStep s e).result ≠ none) :
    e = .wsError ∨
    (∃ w, e = .wsMessage (some (.registered w))) ∨
    (∃ code msg id, e = .wsMessage (some (.error code msg id)) ∧
        fatalAuthCode code = true) ∨
    (e = .timeoutFires ∧ s.timeoutArmed = true ∧ s.ws = some .CONNECTING) := by
  cases e with
  | timeoutFires =>
      by_cases h1 : s.timeoutArmed
      · by_cases h2 : s.ws = some .CONNECTING
        · exact Or.inr (Or.inr (Or.inr ⟨rfl, h1, h2⟩))
        · exact absurd (by simpa [connectStep, h1, h2] using hp) hs
      · exact absurd (by simpa [connectStep, h1] using hp) hs
  | wsOpen => exact absurd (by simpa [connectStep] using hp) hs
  | wsError => exact Or.inl rfl
  | wsClose => exact absurd (by simpa [connectStep] using hp) hs
  | wsMessage parsed =>
      cases parsed with
      | none => exact absurd (by simpa [connectStep] using hp) hs
      | some f =>
          cases f with
          | registered w => exact Or.inr (Or.inl ⟨w, rfl⟩)
          | error code msg id =>
              cases hf : fatalAuthCode code with
              | true => exact Or.inr (Or.inr (Or.inl ⟨code, msg, id, rfl, hf⟩))
              | false => exact absurd (by simpa [connectStep, hf] using hp) hs
          | pong => exact absurd (by simpa [connectStep] using hp) hs
          | unbound imei reason => exact absurd (by simpa [connectStep] using hp) hs
          | message id imei text ts cmd ctx =>
              exact absurd (by simpa [connectStep] using hp) hs
          | control_ack id ok => exact absurd (by simpa [connectStep] using hp) hs
          | unknown tag => exact absurd (by simpa [connectStep] using hp) hs

/-- Claim C10 is false in its "otherwise remains pending forever" part: from
the awaiting-registration state, an `invalid_frame` decode failure cancels
the connect timeout and leaves the promise pending — but a subsequent
transport-level error event settles (rejects) it, even though no Registered
frame and no fatal authentication Error frame ever arrived. -/
theorem C10_counterexample :
    (runConnect sampleAwaitingRegistration [ConnEvent.wsMessage none]).result =
      none ∧
    (runConnect sampleAwaitingRegistration
        [ConnEvent.wsMessage none]).timeoutArmed = false ∧
    (runConnect sampleAwaitingRegistration
        [ConnEvent.wsMessage none, ConnEvent.wsError]).result =
      some SettleCause.rejectWsError := by
  refine ⟨by decide, by decide, by decide⟩

/-- Claim C10 (amended): a non-fatal error callback before registration —
the `invalid_frame` decode failure as well as any Error frame whose code is
not `invalid_token`/`unauthorized` — cancels the 15-second connect timeout
without settling the promise; once the timeout is cancelled the promise can
never reject by timeout, whatever events follow; and a pending `connect()`
promise settles only on a Registered frame, a fatal authentication Error
frame, a transport error event, or a still-armed timeout firing while the
transport is connecting — absent those it remains pending. -/
theorem C10_timeout_cancelled (s : ConnectAttempt) (evs : List ConnEvent)
    (h1 : s.timeoutArmed = false)
    (h2 : s.result ≠ some SettleCause.rejectTimeout) :
    (∀ s' : ConnectAttempt,
        (connectStep s' (.wsMessage none)).timeoutArmed = false ∧
        (connectStep s' (.wsMessage none)).result = s'.result) ∧
    (∀ s' : ConnectAttempt, ∀ code msg id, fatalAuthCode code = false →
        (connectStep s' (.wsMessage (some (.error code msg id)))).timeoutArmed =
          false ∧
        (connectStep s' (.wsMessage (some (.error code msg id)))).result =
          s'.result) ∧
    (runConnect s evs).result ≠ some SettleCause.rejectTimeout ∧
    (∀ s' : ConnectAttempt, ∀ e, s'.result = none →
        (connectStep s' e).result ≠ none →
        e = .wsError ∨
        (∃ w, e = .wsMessage (some (.registered w))) ∨
        (∃ code msg id, e = .wsMessage (some (.error code msg id)) ∧
            fatalAuthCode code = true) ∨
        (e = .timeoutFires ∧ s'.timeoutArmed = true ∧
            s'.ws = some .CONNECTING)) := by
  refine ⟨fun s' => ⟨rfl, rfl⟩, ?_, runConnect_no_timeout evs s h1 h2,
    connectStep_settles_only⟩
  intro s' code msg id hf
  constructor <;> simp [connectStep, hf]

/-- Witness for C10: after the decode-failure event cancels the timeout, a
later timer fire and close cannot reject the promise by timeout. -/
theorem C10_timeout_cancelled_witness :
    (connectStep sampleAwaitingRegistration (.wsMessage none)).timeoutArmed =
      false ∧
    (runConnect (connectStep sampleAwaitingRegistration (.wsMessage none))
        [ConnEvent.timeoutFires, ConnEvent.wsClose]).result ≠
      some SettleCause.rejectTimeout :=
  ⟨by decide,
   (C10_timeout_cancelled
      (connectStep sampleAwaitingRegistration (.wsMessage none))
      [ConnEvent.timeoutFires, ConnEvent.wsClose]
      (by decide) (by decide)).2.2.1⟩

end Clawatch
